import Mathlib

/-!
Verification development for the `stoker-monitor` repository (Go).

The repository contains two variants of a Prometheus collector for a
"Stoker" BBQ controller:

* a streaming-mode collector (telnet line protocol): `setTemp`, `addError`,
  `reader`, `Collect` — embedded here in namespace `Streaming`;
* a polling-mode collector (JSON endpoint): `getStokerStatus`, `cleanName`,
  `recordMetrics`, `doMetrics`, `createMetrics` — embedded here in
  namespace `Polling`.

Modelling conventions:

* Go `float64` values and `strconv.ParseFloat` results are modelled over `ℚ`
  (exact decimal values; IEEE rounding, hex floats, Inf and NaN are outside
  the scope of the verified claims).
* Go `int64` counters are modelled as `ℤ` (the claims concern increments by
  one or two, far from any overflow boundary).
* Go `map[string]V` is modelled as an association list `List (String × V)`
  with last-write-wins insertion (`alInsert`).
* Go `error` is modelled as `Option goError`, `none` being the nil error.
  `github.com/pkg/errors` semantics are kept: `Wrap`/`Wrapf` of a nil error
  yield a nil error.
* A Go runtime panic (nil-pointer dereference, index out of range) is
  modelled by an `Option` result being `none` at the level of the whole
  operation.
-/

namespace StokerMonitor

/-- Association-list lookup, the model of reading a Go `map[string]V`. -/
def alLookup {α : Type} : List (String × α) → String → Option α
  | [], _ => none
  | (k', v) :: rest, k => if k' = k then some v else alLookup rest k

/-- Association-list insert/overwrite, the model of a Go `m[k] = v`
assignment: overwrites the binding when the key is present, appends
otherwise. -/
def alInsert {α : Type} : List (String × α) → String → α → List (String × α)
  | [], k, v => [(k, v)]
  | (k', v') :: rest, k, v =>
      if k' = k then (k, v) :: rest else (k', v') :: alInsert rest k v

/-- Model of Go `strings.HasSuffix(s, ":")`: the last character is a colon
(for the one-byte ASCII suffix the byte test and the character test agree). -/
def hasColonSuffix (s : String) : Bool :=
  match s.data.getLast? with
  | some c => c = ':'
  | none => false

/-- Model of Go `strings.TrimSuffix(s, ":")`: drop the final colon when
present. -/
def trimColonSuffix (s : String) : String :=
  if hasColonSuffix s then String.mk s.data.dropLast else s

/-- Splitting a character list at every space, the model of Go
`strings.Split(s, " ")`: adjacent separators produce empty tokens, and the
result is never the empty list. -/
def splitSpaceAux : List Char → List (List Char)
  | [] => [[]]
  | c :: rest =>
      if c = ' ' then [] :: splitSpaceAux rest
      else
        match splitSpaceAux rest with
        | t :: ts => (c :: t) :: ts
        | [] => [[c]]

/-- Model of Go `strings.Split(s, " ")`. -/
def splitSpace (s : String) : List String :=
  (splitSpaceAux s.data).map String.mk

/-- Leading-sign step of numeric parsing: returns (negative?, rest). -/
def readSign : List Char → Bool × List Char
  | '-' :: rest => (true, rest)
  | '+' :: rest => (false, rest)
  | cs => (false, cs)

/-- Numeric value of a digit string (most significant first). -/
def natOfDigits (cs : List Char) : Nat :=
  cs.foldl (fun n c => n * 10 + (c.toNat - '0'.toNat)) 0

/-- Mantissa of a decimal literal: digits with at most one dot, at least one
digit overall (`"5."`, `".5"`, `"91"` succeed; `"."`, `""`, `"NORM"` fail).
Returns the full digit string and the number of fractional digits. -/
def parseMantissa (cs : List Char) : Option (List Char × Nat) :=
  let ip := cs.takeWhile Char.isDigit
  let rest := cs.dropWhile Char.isDigit
  match rest with
  | [] => if ip.isEmpty then none else some (ip, 0)
  | '.' :: fp =>
      if fp.all Char.isDigit && !(ip.isEmpty && fp.isEmpty) then
        some (ip ++ fp, fp.length)
      else none
  | _ => none

/-- Exponent part after `e`/`E`: optional sign, then at least one digit. -/
def parseExponent (cs : List Char) : Option ℤ :=
  let (neg, ds) := readSign cs
  if ds.isEmpty || !(ds.all Char.isDigit) then none
  else some (if neg then -(natOfDigits ds : ℤ) else (natOfDigits ds : ℤ))

/-- Split a numeric literal at the first `e`/`E`, if any. -/
def splitAtExponent (cs : List Char) : List Char × Option (List Char) :=
  match cs.dropWhile (fun c => c ≠ 'e' && c ≠ 'E') with
  | [] => (cs, none)
  | _ :: e => (cs.takeWhile (fun c => c ≠ 'e' && c ≠ 'E'), some e)

/-- Model of Go `strconv.ParseFloat(s, 32)` over `ℚ`: sign, decimal mantissa,
optional decimal exponent, exact rational value `±digits · 10^(exp − fracLen)`
built with `mkRat`.  (Float32 rounding and the special forms Inf/NaN/hex are
not modelled; no claim depends on them.) -/
def parseFloat (s : String) : Option ℚ :=
  let (neg, cs) := readSign s.data
  let (m, e?) := splitAtExponent cs
  match parseMantissa m with
  | none => none
  | some (digits, fracLen) =>
      let ex? : Option ℤ :=
        match e? with
        | none => some 0
        | some ecs => parseExponent ecs
      ex?.map fun ex =>
        let e : ℤ := ex - (fracLen : ℤ)
        let n : ℤ :=
          if neg then -(natOfDigits digits : ℤ) else (natOfDigits digits : ℤ)
        if 0 ≤ e then mkRat (n * ((10 ^ e.toNat : ℕ) : ℤ)) 1
        else mkRat n (10 ^ (-e).toNat)

namespace Streaming

/-- One probe of the streaming collector (`type probe struct` in the source):
id, `"food"`/`"pit"` type, temperature in Celsius, blower state, and how many
times the probe has been collected. -/
structure probe where
  id : String
  probeType : String
  temperature : ℚ
  blower : String
  collections : ℤ
deriving DecidableEq

/-- Mutable state of the streaming collector (`type collector struct`): the
probe map and the per-category failure counters.  The Prometheus descriptors
and the logger carry no state relevant to the claims and are omitted. -/
structure collector where
  probes : List (String × probe)
  collectErrors : List (String × ℤ)
deriving DecidableEq

/-- The freshly constructed collector (`newCollector`): empty maps. -/
def newCollector : collector := { probes := [], collectErrors := [] }

/-- Embedding of `(*collector).addError`: bump one failure-category counter,
creating it at 1 when absent. -/
def addError (c : collector) (t : String) : collector :=
  let v := (alLookup c.collectErrors t).getD 0
  { c with collectErrors := alInsert c.collectErrors t (v + 1) }

/-- Errors returned by `setTemp` (`errors.Errorf`/`errors.Wrapf` values):
either an unknown probe marker (carrying the unexpected token) or a
temperature-parse failure (carrying the offending token). -/
inductive setTempError where
  | unknownProbe (marker : String)
  | parseTemperature (tok : String)
deriving DecidableEq

/-- The in-place update of an existing probe (source lines 194–197):
`collections++`, new temperature, blower reset to `"unknown"`; the
`probeType` field is not touched. -/
def probeUpdate (p : probe) (t : ℚ) : probe :=
  { p with collections := p.collections + 1, temperature := t,
           blower := "unknown" }

/-- The freshly created probe (source lines 200–206): the classified type,
the parsed temperature, blower `"unknown"`, `collections = 1`. -/
def probeNew (id probeType : String) (t : ℚ) : probe :=
  { id := id, probeType := probeType, temperature := t,
    blower := "unknown", collections := 1 }

/-- Shared tail of `setTemp` (source lines 182–210): parse `parts[8]` as the
Celsius temperature and create or update the probe.  On a parse failure the
`"parseFloat"` counter is bumped and an error is returned; on success an
existing probe keeps its `probeType` and gets `collections+1`, a new probe is
created with the classified type and `collections = 1`. -/
def setTempApply (c : collector) (id probeType tok : String) :
    collector × Option setTempError :=
  match parseFloat tok with
  | none => (addError c "parseFloat", some (.parseTemperature tok))
  | some t =>
      match alLookup c.probes id with
      | some p =>
          ({ c with probes := alInsert c.probes id (probeUpdate p t) }, none)
      | none =>
          ({ c with probes := alInsert c.probes id (probeNew id probeType t) },
           none)

/-- Embedding of `(*collector).setTemp(parts []string)`.  The outer `Option`
is `none` only for the empty token list, where the Go code would panic on
`parts[0]` (unreachable from `reader`, whose `strings.Split` never yields an
empty slice).  Inside each branch the `List.getD` indices are in bounds by
the branch condition, exactly as in the Go slice accesses. -/
def setTemp (c : collector) (parts : List String) :
    Option (collector × Option setTempError) :=
  match parts with
  | [] => none
  | p0 :: _ =>
      if !(hasColonSuffix p0) then some (c, none)
      else
        let id := trimColonSuffix p0
        if parts.length = 11 then
          some (setTempApply c id "food" (parts.getD 8 ""))
        else if 11 < parts.length then
          if parts.getD 10 "" ≠ "PID:" then
            some (addError c "unknownProbe",
                  some (.unknownProbe (parts.getD 10 "")))
          else
            some (setTempApply c id "pit" (parts.getD 8 ""))
        else
          some (c, none)

/-- One line of `(*collector).reader`: split on spaces and feed `setTemp`
(the reader logs and drops the returned error).  `splitSpace` never returns
the empty list, so the panic case of `setTemp` is unreachable; it is mapped
to the identity here. -/
def stepLine (c : collector) (line : String) : collector :=
  match setTemp c (splitSpace line) with
  | some (c', _) => c'
  | none => c

/-- `reader` over a finite list of input lines. -/
def runLines (c : collector) (lines : List String) : collector :=
  lines.foldl stepLine c

/-- `setTemp` applied to a raw line exactly as `reader` does. -/
def setTempLine (c : collector) (line : String) :
    Option (collector × Option setTempError) :=
  setTemp c (splitSpace line)

/-- A streaming record that the parser applies to the store: nonempty token
list, first token ends in a colon, food shape (11 tokens) or pit shape
(more than 11 tokens with the `"PID:"` marker), and a numeric token 8. -/
def validRecord (parts : List String) : Bool :=
  match parts with
  | [] => false
  | p0 :: _ =>
      hasColonSuffix p0 &&
      (parts.length = 11 ||
        (decide (11 < parts.length) && parts.getD 10 "" = "PID:")) &&
      (parseFloat (parts.getD 8 "")).isSome

end Streaming

/-- A constructed Prometheus metric, reduced to the data the claims mention:
which descriptor it belongs to, its value, and its label values. -/
structure metric where
  descName : String
  value : ℚ
  labelValues : List String
deriving DecidableEq

/-- Model of `prometheus.NewConstMetric`: construction either yields the
metric or fails (invalid label data).  The library's internal validity check
is abstracted as a caller-supplied predicate, so the theorems quantify over
every possible pattern of construction failures. -/
def newConstMetric (valid : metric → Bool) (descName : String) (value : ℚ)
    (labelValues : List String) : Option metric :=
  let m : metric := { descName := descName, value := value,
                      labelValues := labelValues }
  if valid m then some m else none

namespace Streaming

/-- Embedding of the streaming `(*collector).Collect`: one counter metric per
failure category, then per probe one temperature gauge and one collections
counter; a metric whose construction fails is logged and skipped, the rest
are still emitted.  The collector state is passed through to make the frame
effect of the method explicit: the Go method body contains no assignment to
any collector field. -/
def Collect (valid : metric → Bool) (c : collector) :
    collector × List metric :=
  let errMetrics := c.collectErrors.foldl
    (fun acc kv =>
      match newConstMetric valid "collect_failures_total" (kv.2 : ℚ) [kv.1] with
      | some m => acc ++ [m]
      | none => acc) []
  let allMetrics := c.probes.foldl
    (fun acc kv =>
      let v := kv.2
      let acc1 :=
        match newConstMetric valid "probe_status" v.temperature
            [v.probeType, v.id, v.blower] with
        | some m => acc ++ [m]
        | none => acc
      match newConstMetric valid "probe_collections_total" (v.collections : ℚ)
          [v.probeType, v.id] with
      | some m => acc1 ++ [m]
      | none => acc1) errMetrics
  (c, allMetrics)

end Streaming

namespace Polling

/-- One JSON sensor entry (`type sensor struct`): id, name, temperature in
Celsius (`tc`), optional blower reference. -/
structure sensor where
  id : String
  name : String
  temp : ℚ
  blower : Option String
deriving DecidableEq

/-- One JSON blower entry (`type blower struct`): id, name, on-state. -/
structure blower where
  id : String
  name : String
  onState : ℤ
deriving DecidableEq

/-- The decoded JSON payload (`type stokerResponse struct`), flattening the
inner `stoker` object. -/
structure stokerResponse where
  sensors : List sensor
  blowers : List blower
deriving DecidableEq

/-- Model of a Go `error` value: `github.com/pkg/errors` values are either
fresh (`errors.New` / `errors.Errorf`) or wrap a cause with a message. -/
inductive goError where
  | new (msg : String)
  | wrapped (msg : String) (cause : goError)
deriving DecidableEq

/-- Model of `errors.Wrap` / `errors.Wrapf`: wrapping a nil error yields a
nil error (exactly the pkg/errors contract). -/
def wrap (err : Option goError) (msg : String) : Option goError :=
  match err with
  | none => none
  | some e => some (.wrapped msg e)

/-- Everything outside the process that one polling fetch can encounter:
the transport fails with some error, or the device answers with a status
code and a body whose read/decode outcome is given. -/
inductive bodyOutcome where
  | readError (e : goError)
  | unmarshalError (e : goError)
  | payload (s : stokerResponse)
deriving DecidableEq

/-- Outcome of the HTTP exchange performed by `getStokerStatus`. -/
inductive fetchOutcome where
  | transportError (e : goError)
  | response (status : Nat) (body : bodyOutcome)
deriving DecidableEq

/-- Mutable state of the polling collector (`type collector struct` in
`main.go`): the sensor and blower maps and the two aggregate counters.  The
HTTP client, URL, interval, descriptors and logger carry no state relevant
to the claims and are omitted. -/
structure collector where
  sensors : List (String × sensor)
  blowers : List (String × blower)
  collections : ℤ
  failures : ℤ
deriving DecidableEq

/-- The character class kept by the `nameLabelRegex` sanitizer:
`[a-z0-9_]`. -/
def isNameChar (c : Char) : Bool :=
  ('a' ≤ c && c ≤ 'z') || ('0' ≤ c && c ≤ '9') || c = '_'

/-- Embedding of `cleanName`: replace every space character with an
underscore (`strings.Replace(in, " ", "_", -1)`), lowercase
(`strings.ToLower`; `Char.toLower` models it — the two agree on every
character whose lowercase form lies in `[a-z0-9_]`), then delete every
character outside `[a-z0-9_]` (`nameLabelRegex.ReplaceAllString(in, "")`). -/
def cleanName (s : String) : String :=
  let underscored := s.data.map fun c => if c = ' ' then '_' else c
  let lowered := underscored.map Char.toLower
  String.mk (lowered.filter isNameChar)

/-- Modelled from the spec (claim C9 comparison only): "sanitized
(lowercased, whitespace→underscore, non `[a-z0-9_]` stripped)" — the spec's
rule replaces every whitespace character, not only the space character. -/
def specCleanName (s : String) : String :=
  let lowered := s.data.map Char.toLower
  let underscored := lowered.map fun c => if c.isWhitespace then '_' else c
  String.mk (underscored.filter isNameChar)

/-- Modelled from the amended claim words (C9): lowercase, replace each
*space* character with an underscore, strip the remaining characters outside
`[a-z0-9_]`. -/
def specCleanNameAmended (s : String) : String :=
  let lowered := s.data.map Char.toLower
  let underscored := lowered.map fun c => if c = ' ' then '_' else c
  String.mk (underscored.filter isNameChar)

/-- Embedding of `(*collector).getStokerStatus` as a function of the fetch
outcome, returning the Go `(*stokerResponse, error)` pair.  Note the
non-200 branch: the source calls `errors.Wrapf(err, "unexpected HTTP status
%d", ...)` where `err` is the nil error of the successful `client.Do`, so
the returned error is nil and the returned pointer is nil as well. -/
def getStokerStatus (f : fetchOutcome) :
    Option stokerResponse × Option goError :=
  match f with
  | .transportError e => (none, wrap (some e) "http request failed")
  | .response status body =>
      if status ≠ 200 then
        (none, wrap none ("unexpected HTTP status " ++ toString status))
      else
        match body with
        | .readError e => (none, wrap (some e) "failed to read response body")
        | .unmarshalError e =>
            (none, wrap (some e) "failed to unmarshal response body")
        | .payload s =>
            if s.sensors.length = 0 then (none, some (.new "no sensors found"))
            else (some s, none)

/-- The sensor-map construction loop of `recordMetrics`: skip entries with an
empty id, sanitize the name, last entry with a given id wins. -/
def buildSensors (l : List sensor) : List (String × sensor) :=
  l.foldl
    (fun m v =>
      if v.id = "" then m
      else alInsert m v.id { v with name := cleanName v.name }) []

/-- The blower-map construction loop of `recordMetrics`. -/
def buildBlowers (l : List blower) : List (String × blower) :=
  l.foldl
    (fun m v =>
      if v.id = "" then m
      else alInsert m v.id { v with name := cleanName v.name }) []

/-- Embedding of `(*collector).recordMetrics`: `none` models the runtime
panic that occurs when `getStokerStatus` returns a nil pointer together with
a nil error (the non-200 branch) and the code dereferences
`s.Stoker.Sensors` on the nil `s`.  On a non-nil error the collector state
is returned unchanged; on success the sensor and blower maps are replaced
wholesale by the freshly built maps. -/
def recordMetrics (c : collector) (f : fetchOutcome) :
    Option (collector × Option goError) :=
  match getStokerStatus f with
  | (_, some err) =>
      some (c, some (.wrapped "failed to get stoker status" err))
  | (some s, none) =>
      some ({ c with sensors := buildSensors s.sensors,
                     blowers := buildBlowers s.blowers }, none)
  | (none, none) => none

/-- Embedding of `doMetrics`: run one collection cycle, then increment the
attempt counter and, when `recordMetrics` returned an error, the failure
counter.  `none` propagates the panic of `recordMetrics` — the counter
updates never happen on that path. -/
def doMetrics (c : collector) (f : fetchOutcome) : Option collector :=
  match recordMetrics c f with
  | none => none
  | some (c', err?) =>
      let errCount : ℤ := match err? with | some _ => 1 | none => 0
      some { c' with collections := c'.collections + 1,
                     failures := c'.failures + errCount }

/-- Embedding of the polling `(*collector).createMetrics`: the failure and
collection counters, then one gauge per sensor (blower label defaulting to
the empty string) and one per blower; a metric whose construction fails is
logged and skipped.  The collector state is passed through to make the frame
effect explicit: the Go method body contains no assignment to any collector
field. -/
def createMetrics (valid : metric → Bool) (c : collector) :
    collector × List metric :=
  let ms0 : List metric := []
  let ms1 :=
    match newConstMetric valid "failures_total" (c.failures : ℚ) [] with
    | some m => ms0 ++ [m]
    | none => ms0
  let ms2 :=
    match newConstMetric valid "collections_total" (c.collections : ℚ) [] with
    | some m => ms1 ++ [m]
    | none => ms1
  let ms3 := c.sensors.foldl
    (fun acc kv =>
      let v := kv.2
      let blowerLabel := v.blower.getD ""
      match newConstMetric valid "sensor_temperature" v.temp
          [v.id, v.name, blowerLabel] with
      | some m => acc ++ [m]
      | none => acc) ms2
  let ms4 := c.blowers.foldl
    (fun acc kv =>
      let v := kv.2
      match newConstMetric valid "blower_state" (v.onState : ℚ)
          [v.id, v.name] with
      | some m => acc ++ [m]
      | none => acc) ms3
  (c, ms4)

end Polling

/-! ### Concrete inputs used by counterexamples and witnesses -/

/-- The first end-to-end example line of the spec, exactly as written there
(it splits on single spaces into 10 tokens). -/
def exampleLine1 : String :=
  "2B0000110A442730: 1.0 4.0 39.2 -7.5 -0.2 0.2 -0.0 0.3 32.4"

/-- The second end-to-end example line of the spec, exactly as written there
(19 tokens, token index 8 is `"91.7"`, token index 10 is `"PID:"`). -/
def exampleLine2 : String :=
  "2A0000110A314B30: 1.0 3.8 38.8 142.5 3.6 0.1 3.7 91.7 197.0 PID: NORM tgt:107.2 error:77.7 drive:2.0 istate:18.2 on:1 off:0 blwr:on"

/-- A concrete polling collector holding one sensor and one blower, with
nonzero counters, used to exhibit the non-200 behaviour. -/
def pollSample : Polling.collector :=
  { sensors := [("2A00", { id := "2A00", name := "pit_sensor", temp := 100,
                           blower := some "3C00" })],
    blowers := [("3C00", { id := "3C00", name := "big_green_egg",
                           onState := 1 })],
    collections := 5, failures := 2 }

/-- A concrete nonempty payload whose sensor set is a strict subset of
`pollSample`'s information (fresh single sensor, no blowers). -/
def paySample : Polling.stokerResponse :=
  { sensors := [{ id := "2B00", name := "Food Sensor", temp := 50,
                  blower := none }],
    blowers := [] }

/-- The empty payload `{"stoker":{"sensors":[],"blowers":[]}}`. -/
def payEmpty : Polling.stokerResponse := { sensors := [], blowers := [] }

/-- The probe that ingesting `exampleLine2` into a fresh collector creates:
a pit probe at 91.7 °C (token index 8 of that line). -/
def pitProbeOf2 : Streaming.probe :=
  Streaming.probeNew "2A0000110A314B30" "pit" (mkRat 917 10)

/-- The collector state after ingesting `exampleLine2` into a fresh
collector. -/
def stateAfterLine2 : Streaming.collector :=
  { probes := [("2A0000110A314B30", pitProbeOf2)], collectErrors := [] }

/-! ### Association-list and `addError` lemmas -/

theorem alLookup_alInsert_self {α : Type} (l : List (String × α)) (k : String)
    (v : α) : alLookup (alInsert l k v) k = some v := by
  induction l with
  | nil => simp [alInsert, alLookup]
  | cons hd tl ih =>
      obtain ⟨k', v'⟩ := hd
      by_cases h : k' = k <;> simp [alInsert, alLookup, h, ih]

theorem alLookup_alInsert_ne {α : Type} (l : List (String × α)) (k k' : String)
    (v : α) (h : k ≠ k') : alLookup (alInsert l k v) k' = alLookup l k' := by
  induction l with
  | nil => simp [alInsert, alLookup, h]
  | cons hd tl ih =>
      obtain ⟨k₀, v₀⟩ := hd
      by_cases h₀ : k₀ = k
      · subst h₀
        simp [alInsert, alLookup, h]
      · simp [alInsert, alLookup, h₀, ih]

theorem addError_probes (c : Streaming.collector) (t : String) :
    (Streaming.addError c t).probes = c.probes := rfl

theorem addError_lookup_self (c : Streaming.collector) (t : String) :
    alLookup (Streaming.addError c t).collectErrors t =
      some ((alLookup c.collectErrors t).getD 0 + 1) :=
  alLookup_alInsert_self ..

theorem addError_lookup_ne (c : Streaming.collector) (t t' : String)
    (h : t ≠ t') :
    alLookup (Streaming.addError c t).collectErrors t' =
      alLookup c.collectErrors t' :=
  alLookup_alInsert_ne _ _ _ _ h

/-! ### `setTemp` branch lemmas -/

theorem setTempApply_existing (c : Streaming.collector) (id ty tok : String)
    (t : ℚ) (p : Streaming.probe) (ht : parseFloat tok = some t)
    (hl : alLookup c.probes id = some p) :
    Streaming.setTempApply c id ty tok =
      ({ c with probes := alInsert c.probes id (Streaming.probeUpdate p t) },
       none) := by
  unfold Streaming.setTempApply
  simp only [ht, hl]

theorem setTempApply_new (c : Streaming.collector) (id ty tok : String)
    (t : ℚ) (ht : parseFloat tok = some t)
    (hl : alLookup c.probes id = none) :
    Streaming.setTempApply c id ty tok =
      ({ c with probes := alInsert c.probes id (Streaming.probeNew id ty t) },
       none) := by
  unfold Streaming.setTempApply
  simp only [ht, hl]

theorem setTempApply_parse_fail (c : Streaming.collector) (id ty tok : String)
    (h : parseFloat tok = none) :
    Streaming.setTempApply c id ty tok =
      (Streaming.addError c "parseFloat", some (.parseTemperature tok)) := by
  unfold Streaming.setTempApply
  rw [h]

theorem setTemp_food_branch (c : Streaming.collector) (p0 : String)
    (rest : List String) (hcol : hasColonSuffix p0 = true)
    (hlen : (p0 :: rest).length = 11) :
    Streaming.setTemp c (p0 :: rest) =
      some (Streaming.setTempApply c (trimColonSuffix p0) "food"
        ((p0 :: rest).getD 8 "")) := by
  simp only [List.length_cons] at hlen
  have h10 : rest.length = 10 := by omega
  simp [Streaming.setTemp, hcol, h10]

theorem setTemp_pit_branch (c : Streaming.collector) (p0 : String)
    (rest : List String) (hcol : hasColonSuffix p0 = true)
    (hlen : 11 < (p0 :: rest).length)
    (hmark : (p0 :: rest).getD 10 "" = "PID:") :
    Streaming.setTemp c (p0 :: rest) =
      some (Streaming.setTempApply c (trimColonSuffix p0) "pit"
        ((p0 :: rest).getD 8 "")) := by
  simp only [List.length_cons] at hlen
  have h10 : ¬ rest.length = 10 := by omega
  have h11 : 11 < rest.length + 1 := by omega
  have hm : rest.getD 9 "" = "PID:" := by simpa using hmark
  simp only [List.getD_eq_getElem?_getD] at hm
  simp [Streaming.setTemp, hcol, h10, h11, hm]

theorem setTemp_unknown_branch (c : Streaming.collector) (p0 : String)
    (rest : List String) (hcol : hasColonSuffix p0 = true)
    (hlen : 11 < (p0 :: rest).length)
    (hmark : (p0 :: rest).getD 10 "" ≠ "PID:") :
    Streaming.setTemp c (p0 :: rest) =
      some (Streaming.addError c "unknownProbe",
        some (.unknownProbe ((p0 :: rest).getD 10 ""))) := by
  simp only [List.length_cons] at hlen
  have h10 : ¬ rest.length = 10 := by omega
  have h11 : 11 < rest.length + 1 := by omega
  have hm : ¬ rest.getD 9 "" = "PID:" := by simpa using hmark
  simp only [List.getD_eq_getElem?_getD] at hm
  simp [Streaming.setTemp, hcol, h10, h11, hm]

theorem setTemp_ignores (c : Streaming.collector)
    (parts : List String) (hne : parts ≠ [])
    (h : hasColonSuffix (parts.headD "") = false ∨ parts.length < 11) :
    Streaming.setTemp c parts = some (c, none) := by
  obtain ⟨p0, rest, rfl⟩ : ∃ p0 rest, parts = p0 :: rest := by
    cases parts with
    | nil => exact absurd rfl hne
    | cons a l => exact ⟨a, l, rfl⟩
  rcases h with h | h
  · simp only [List.headD_cons] at h
    simp [Streaming.setTemp, h]
  · by_cases hcol : hasColonSuffix p0
    · simp only [List.length_cons] at h
      have h1 : ¬ rest.length = 10 := by omega
      have h2 : ¬ 11 < rest.length + 1 := by omega
      simp [Streaming.setTemp, hcol, h1, h2]
    · simp [Streaming.setTemp, hcol]

/-! ### Claim C5 -/

/-- C5: a streaming line whose first token does not end with `':'`, and a
line with fewer than 11 space-separated tokens, are ignored: `setTemp`
returns without error, creates or mutates no entity, and increments no
failure counter — the collector state is returned exactly unchanged. -/
theorem C5_short_and_nonprobe_lines_ignored (c : Streaming.collector)
    (parts : List String) (hne : parts ≠ [])
    (h : hasColonSuffix (parts.headD "") = false ∨ parts.length < 11) :
    Streaming.setTemp c parts = some (c, none) :=
  setTemp_ignores c parts hne h

/-- Witness for C5 at two concrete inputs: a status line whose first token
has no colon, and a colon-prefixed line with only three tokens. -/
theorem C5_short_and_nonprobe_lines_ignored_witness :
    Streaming.setTemp Streaming.newCollector ["Stoker", "V2.7.0.217"] =
      some (Streaming.newCollector, none) ∧
    Streaming.setTemp Streaming.newCollector ["AA:", "1.0", "2.0"] =
      some (Streaming.newCollector, none) :=
  ⟨C5_short_and_nonprobe_lines_ignored _ _ (by decide) (Or.inl (by decide)),
   C5_short_and_nonprobe_lines_ignored _ _ (by decide) (Or.inr (by decide))⟩

/-! ### Claim C3 -/

/-- C3: every streaming line whose first token ends with `':'` and which
splits on single spaces into exactly 11 tokens is classified as a food
probe, and token index 8 (0-based) is parsed as the floating-point
temperature stored for that entity: `setTemp` succeeds without error, the
entity keyed by the colon-trimmed first token holds the parsed value of
token 8, and when the entity is new its kind is `"food"`. -/
theorem C3_eleven_token_lines_are_food (c : Streaming.collector)
    (parts : List String) (t : ℚ)
    (hcol : hasColonSuffix (parts.headD "") = true)
    (hlen : parts.length = 11)
    (ht : parseFloat (parts.getD 8 "") = some t) :
    ∃ c', Streaming.setTemp c parts = some (c', none) ∧
      ∃ p, alLookup c'.probes (trimColonSuffix (parts.headD "")) = some p ∧
        p.temperature = t ∧
        (alLookup c.probes (trimColonSuffix (parts.headD "")) = none →
          p.probeType = "food") := by
  obtain ⟨p0, rest, rfl⟩ : ∃ p0 rest, parts = p0 :: rest := by
    cases parts with
    | nil => simp at hlen
    | cons a l => exact ⟨a, l, rfl⟩
  simp only [List.headD_cons] at hcol ⊢
  cases hl : alLookup c.probes (trimColonSuffix p0) with
  | some p =>
      rw [setTemp_food_branch c p0 rest hcol hlen,
        setTempApply_existing _ _ _ _ _ _ ht hl]
      refine ⟨_, rfl, Streaming.probeUpdate p t, alLookup_alInsert_self .., rfl,
        fun hnone => absurd hnone (by simp)⟩
  | none =>
      rw [setTemp_food_branch c p0 rest hcol hlen,
        setTempApply_new _ _ _ _ _ ht hl]
      exact ⟨_, rfl, Streaming.probeNew (trimColonSuffix p0) "food" t,
        alLookup_alInsert_self .., rfl, fun _ => rfl⟩

/-- Witness for C3: the spec's food line as the device actually emits it
(with its trailing space it has 11 tokens); token 8 is `"0.3"`, the Celsius
column, so the created probe is `"food"` at temperature 3/10. -/
theorem C3_eleven_token_lines_are_food_witness :
    ∃ c', Streaming.setTemp Streaming.newCollector
        (splitSpace "2B0000110A442730: 1.0 4.0 39.2 -7.5 -0.2 0.2 -0.0 0.3 32.4 ") =
        some (c', none) ∧
      ∃ p, alLookup c'.probes
          (trimColonSuffix ((splitSpace "2B0000110A442730: 1.0 4.0 39.2 -7.5 -0.2 0.2 -0.0 0.3 32.4 ").headD "")) = some p ∧
        p.temperature = mkRat 3 10 ∧
        (alLookup Streaming.newCollector.probes
            (trimColonSuffix ((splitSpace "2B0000110A442730: 1.0 4.0 39.2 -7.5 -0.2 0.2 -0.0 0.3 32.4 ").headD "")) = none →
          p.probeType = "food") :=
  C3_eleven_token_lines_are_food Streaming.newCollector _ _ (by decide)
    (by decide) (by decide)

/-! ### Claim C4 -/

/-- C4: a streaming probe line that fails to parse increments exactly one
failure counter by exactly 1 and touches no entity.  A line with more than
11 tokens whose token 10 differs from `"PID:"` increments `"unknownProbe"`
and the error carries the unexpected marker; a food- or pit-shaped line
whose token 8 is not a valid number increments `"parseFloat"`.  In both
cases the probe map is unchanged, the incremented category rises by exactly
one, and every other category is unchanged. -/
theorem C4_failures_increment_one_counter :
    (∀ (c : Streaming.collector) (parts : List String),
      hasColonSuffix (parts.headD "") = true → 11 < parts.length →
      parts.getD 10 "" ≠ "PID:" →
      Streaming.setTemp c parts =
        some (Streaming.addError c "unknownProbe",
          some (.unknownProbe (parts.getD 10 ""))) ∧
      (Streaming.addError c "unknownProbe").probes = c.probes ∧
      alLookup (Streaming.addError c "unknownProbe").collectErrors
          "unknownProbe" =
        some ((alLookup c.collectErrors "unknownProbe").getD 0 + 1) ∧
      ∀ cat, cat ≠ "unknownProbe" →
        alLookup (Streaming.addError c "unknownProbe").collectErrors cat =
          alLookup c.collectErrors cat) ∧
    (∀ (c : Streaming.collector) (parts : List String),
      hasColonSuffix (parts.headD "") = true →
      (parts.length = 11 ∨ (11 < parts.length ∧ parts.getD 10 "" = "PID:")) →
      parseFloat (parts.getD 8 "") = none →
      Streaming.setTemp c parts =
        some (Streaming.addError c "parseFloat",
          some (.parseTemperature (parts.getD 8 ""))) ∧
      (Streaming.addError c "parseFloat").probes = c.probes ∧
      alLookup (Streaming.addError c "parseFloat").collectErrors "parseFloat" =
        some ((alLookup c.collectErrors "parseFloat").getD 0 + 1) ∧
      ∀ cat, cat ≠ "parseFloat" →
        alLookup (Streaming.addError c "parseFloat").collectErrors cat =
          alLookup c.collectErrors cat) := by
  constructor
  · intro c parts hcol hlen hmark
    obtain ⟨p0, rest, rfl⟩ : ∃ p0 rest, parts = p0 :: rest := by
      cases parts with
      | nil => simp at hlen
      | cons a l => exact ⟨a, l, rfl⟩
    simp only [List.headD_cons] at hcol
    refine ⟨setTemp_unknown_branch c p0 rest hcol hlen hmark,
      addError_probes .., addError_lookup_self .., fun cat hcat =>
        addError_lookup_ne _ _ _ (Ne.symm hcat)⟩
  · intro c parts hcol hshape ht
    obtain ⟨p0, rest, rfl⟩ : ∃ p0 rest, parts = p0 :: rest := by
      cases parts with
      | nil =>
          rcases hshape with h | ⟨h, -⟩ <;> simp at h
      | cons a l => exact ⟨a, l, rfl⟩
    simp only [List.headD_cons] at hcol
    have happ : Streaming.setTemp c (p0 :: rest) =
        some (Streaming.setTempApply c (trimColonSuffix p0)
          (if (p0 :: rest).length = 11 then "food" else "pit")
          ((p0 :: rest).getD 8 "")) := by
      rcases hshape with h11 | ⟨hgt, hm⟩
      · rw [if_pos h11]
        exact setTemp_food_branch c p0 rest hcol h11
      · rw [if_neg (by omega)]
        exact setTemp_pit_branch c p0 rest hcol hgt hm
    rw [happ, setTempApply_parse_fail _ _ _ _ ht]
    exact ⟨rfl, addError_probes .., addError_lookup_self .., fun cat hcat =>
      addError_lookup_ne _ _ _ (Ne.symm hcat)⟩

/-- Witness for C4: the spec's own example 3 (the pit line with its marker
changed to `"XYZ:"`) exercises the unknown-probe case, and an 11-token line
whose token 8 is `"x"` exercises the temperature-parse case, both from the
empty collector, whose counters all start absent. -/
theorem C4_failures_increment_one_counter_witness :
    (Streaming.setTemp Streaming.newCollector
        (splitSpace "2A0000110A314B30: 1.0 3.8 38.8 142.5 3.6 0.1 3.7 91.7 197.0 XYZ: NORM tgt:107.2 error:77.7 drive:2.0 istate:18.2 on:1 off:0 blwr:on") =
      some (Streaming.addError Streaming.newCollector "unknownProbe",
        some (.unknownProbe "XYZ:"))) ∧
    (Streaming.setTemp Streaming.newCollector
        ["AA:", "1", "2", "3", "4", "5", "6", "7", "x", "9", ""] =
      some (Streaming.addError Streaming.newCollector "parseFloat",
        some (.parseTemperature "x"))) := by
  constructor
  · have h := (C4_failures_increment_one_counter.1 Streaming.newCollector
      (splitSpace "2A0000110A314B30: 1.0 3.8 38.8 142.5 3.6 0.1 3.7 91.7 197.0 XYZ: NORM tgt:107.2 error:77.7 drive:2.0 istate:18.2 on:1 off:0 blwr:on")
      (by decide) (by decide) (by decide)).1
    simpa using h
  · have h := (C4_failures_increment_one_counter.2 Streaming.newCollector
      ["AA:", "1", "2", "3", "4", "5", "6", "7", "x", "9", ""]
      (by decide) (Or.inl (by decide)) (by decide)).1
    simpa using h

/-! ### Claim C7 -/

theorem setTempApply_twice (c : Streaming.collector) (id ty tok : String)
    (t : ℚ) (ht : parseFloat tok = some t) :
    ∃ c₁ c₂, Streaming.setTempApply c id ty tok = (c₁, none) ∧
      Streaming.setTempApply c₁ id ty tok = (c₂, none) ∧
      ∃ p, alLookup c₂.probes id = some p ∧ p.temperature = t ∧
        p.collections =
          ((alLookup c.probes id).map Streaming.probe.collections).getD 0 + 2 := by
  cases hl : alLookup c.probes id with
  | some p =>
      have h1 := setTempApply_existing c id ty tok t p ht hl
      have hl1 : alLookup (alInsert c.probes id (Streaming.probeUpdate p t)) id
          = some (Streaming.probeUpdate p t) := alLookup_alInsert_self ..
      have h2 := setTempApply_existing
        { c with probes := alInsert c.probes id (Streaming.probeUpdate p t) }
        id ty tok t (Streaming.probeUpdate p t) ht hl1
      refine ⟨_, _, h1, h2,
        Streaming.probeUpdate (Streaming.probeUpdate p t) t,
        alLookup_alInsert_self .., rfl, ?_⟩
      simp [Streaming.probeUpdate]
      ring
  | none =>
      have h1 := setTempApply_new c id ty tok t ht hl
      have hl1 : alLookup (alInsert c.probes id (Streaming.probeNew id ty t)) id
          = some (Streaming.probeNew id ty t) := alLookup_alInsert_self ..
      have h2 := setTempApply_existing
        { c with probes := alInsert c.probes id (Streaming.probeNew id ty t) }
        id ty tok t (Streaming.probeNew id ty t) ht hl1
      refine ⟨_, _, h1, h2,
        Streaming.probeUpdate (Streaming.probeNew id ty t) t,
        alLookup_alInsert_self .., rfl, ?_⟩
      simp [Streaming.probeUpdate, Streaming.probeNew]

/-- C7: applying one valid streaming record twice in succession leaves the
entity's `collections` exactly 2 greater than before (2 when the entity did
not exist) and its stored temperature equal to the record's parsed
temperature; both applications succeed without error. -/
theorem C7_double_ingestion (c : Streaming.collector) (parts : List String)
    (t : ℚ) (hv : Streaming.validRecord parts = true)
    (ht : parseFloat (parts.getD 8 "") = some t) :
    ∃ c₁ c₂, Streaming.setTemp c parts = some (c₁, none) ∧
      Streaming.setTemp c₁ parts = some (c₂, none) ∧
      ∃ p, alLookup c₂.probes (trimColonSuffix (parts.headD "")) = some p ∧
        p.temperature = t ∧
        p.collections =
          ((alLookup c.probes (trimColonSuffix (parts.headD ""))).map
            Streaming.probe.collections).getD 0 + 2 := by
  obtain ⟨p0, rest, rfl⟩ : ∃ p0 rest, parts = p0 :: rest := by
    cases parts with
    | nil => simp [Streaming.validRecord] at hv
    | cons a l => exact ⟨a, l, rfl⟩
  simp only [Streaming.validRecord, Bool.and_eq_true, Bool.or_eq_true,
    decide_eq_true_eq, decide_eq_true_iff] at hv
  obtain ⟨⟨hcol, hshape⟩, _⟩ := hv
  simp only [List.headD_cons]
  rcases hshape with h11 | ⟨hgt, hm⟩
  · have h11' : (p0 :: rest).length = 11 := by simpa using h11
    obtain ⟨c₁, c₂, h1, h2, hfin⟩ :=
      setTempApply_twice c (trimColonSuffix p0) "food" ((p0 :: rest).getD 8 "")
        t ht
    exact ⟨c₁, c₂, by rw [setTemp_food_branch c p0 rest hcol h11', h1],
      by rw [setTemp_food_branch c₁ p0 rest hcol h11', h2], hfin⟩
  · have hgt' : 11 < (p0 :: rest).length := by simpa using hgt
    have hm' : (p0 :: rest).getD 10 "" = "PID:" := by simpa using hm
    obtain ⟨c₁, c₂, h1, h2, hfin⟩ :=
      setTempApply_twice c (trimColonSuffix p0) "pit" ((p0 :: rest).getD 8 "")
        t ht
    exact ⟨c₁, c₂, by rw [setTemp_pit_branch c p0 rest hcol hgt' hm', h1],
      by rw [setTemp_pit_branch c₁ p0 rest hcol hgt' hm', h2], hfin⟩

/-- Witness for C7: the real-shape food line (trailing space, 11 tokens)
applied twice to the empty collector: `collections` ends at 2 and the
temperature is 3/10. -/
theorem C7_double_ingestion_witness :
    ∃ c₁ c₂, Streaming.setTemp Streaming.newCollector
        (splitSpace "2B0000110A442730: 1.0 4.0 39.2 -7.5 -0.2 0.2 -0.0 0.3 32.4 ") = some (c₁, none) ∧
      Streaming.setTemp c₁
        (splitSpace "2B0000110A442730: 1.0 4.0 39.2 -7.5 -0.2 0.2 -0.0 0.3 32.4 ") = some (c₂, none) ∧
      ∃ p, alLookup c₂.probes
          (trimColonSuffix ((splitSpace "2B0000110A442730: 1.0 4.0 39.2 -7.5 -0.2 0.2 -0.0 0.3 32.4 ").headD "")) = some p ∧
        p.temperature = mkRat 3 10 ∧
        p.collections =
          ((alLookup Streaming.newCollector.probes
              (trimColonSuffix ((splitSpace "2B0000110A442730: 1.0 4.0 39.2 -7.5 -0.2 0.2 -0.0 0.3 32.4 ").headD ""))).map
            Streaming.probe.collections).getD 0 + 2 :=
  C7_double_ingestion Streaming.newCollector _ _ (by decide) (by decide)

/-! ### Claim C6 -/

theorem setTempApply_keeps_probeType (c : Streaming.collector)
    (id0 ty tok idq : String) (pq : Streaming.probe)
    (h : alLookup c.probes idq = some pq) :
    ∃ p', alLookup (Streaming.setTempApply c id0 ty tok).1.probes idq =
        some p' ∧ p'.probeType = pq.probeType := by
  cases hp : parseFloat tok with
  | none =>
      rw [setTempApply_parse_fail _ _ _ _ hp]
      exact ⟨pq, h, rfl⟩
  | some t =>
      cases hl : alLookup c.probes id0 with
      | some p =>
          rw [setTempApply_existing _ _ _ _ _ _ hp hl]
          by_cases he : id0 = idq
          · subst he
            rw [hl] at h
            obtain rfl : p = pq := by injection h
            exact ⟨Streaming.probeUpdate p t,
              alLookup_alInsert_self .., rfl⟩
          · exact ⟨pq, (alLookup_alInsert_ne c.probes id0 idq
              (Streaming.probeUpdate p t) he).trans h, rfl⟩
      | none =>
          rw [setTempApply_new _ _ _ _ _ hp hl]
          have he : id0 ≠ idq := fun hid => by
            rw [hid, h] at hl
            exact absurd hl (by simp)
          exact ⟨pq, (alLookup_alInsert_ne c.probes id0 idq
            (Streaming.probeNew id0 ty t) he).trans h, rfl⟩

theorem setTemp_keeps_probeType (c : Streaming.collector) (parts : List String)
    (idq : String) (pq : Streaming.probe)
    (h : alLookup c.probes idq = some pq) (c' : Streaming.collector)
    (e : Option Streaming.setTempError)
    (heq : Streaming.setTemp c parts = some (c', e)) :
    ∃ p', alLookup c'.probes idq = some p' ∧ p'.probeType = pq.probeType := by
  obtain ⟨p0, rest, rfl⟩ : ∃ p0 rest, parts = p0 :: rest := by
    cases parts with
    | nil => simp [Streaming.setTemp] at heq
    | cons a l => exact ⟨a, l, rfl⟩
  by_cases hcol : hasColonSuffix p0
  · by_cases h11 : (p0 :: rest).length = 11
    · rw [setTemp_food_branch c p0 rest hcol h11] at heq
      have hfst : (Streaming.setTempApply c (trimColonSuffix p0) "food"
          ((p0 :: rest).getD 8 "")).1 = c' :=
        congrArg Prod.fst (Option.some.inj heq)
      rw [← hfst]
      exact setTempApply_keeps_probeType c _ _ _ idq pq h
    · by_cases hgt : 11 < (p0 :: rest).length
      · by_cases hmark : (p0 :: rest).getD 10 "" = "PID:"
        · rw [setTemp_pit_branch c p0 rest hcol hgt hmark] at heq
          have hfst : (Streaming.setTempApply c (trimColonSuffix p0) "pit"
              ((p0 :: rest).getD 8 "")).1 = c' :=
            congrArg Prod.fst (Option.some.inj heq)
          rw [← hfst]
          exact setTempApply_keeps_probeType c _ _ _ idq pq h
        · rw [setTemp_unknown_branch c p0 rest hcol hgt hmark] at heq
          have hfst : Streaming.addError c "unknownProbe" = c' :=
            congrArg Prod.fst (Option.some.inj heq)
          rw [← hfst]
          exact ⟨pq, h, rfl⟩
      · rw [setTemp_ignores c (p0 :: rest) (by simp)
            (Or.inr (by omega))] at heq
        have hfst : c = c' := congrArg Prod.fst (Option.some.inj heq)
        rw [← hfst]
        exact ⟨pq, h, rfl⟩
  · rw [setTemp_ignores c (p0 :: rest) (by simp)
        (Or.inl (by simpa using hcol))] at heq
    have hfst : c = c' := congrArg Prod.fst (Option.some.inj heq)
    rw [← hfst]
    exact ⟨pq, h, rfl⟩

theorem stepLine_keeps_probeType (c : Streaming.collector) (line : String)
    (idq : String) (pq : Streaming.probe)
    (h : alLookup c.probes idq = some pq) :
    ∃ p', alLookup (Streaming.stepLine c line).probes idq = some p' ∧
      p'.probeType = pq.probeType := by
  unfold Streaming.stepLine
  cases hs : Streaming.setTemp c (splitSpace line) with
  | none => exact ⟨pq, h, rfl⟩
  | some r =>
      obtain ⟨c', e⟩ := r
      exact setTemp_keeps_probeType c _ idq pq h c' e hs

/-- C6: in streaming mode the kind of an entity is fixed once the entity
exists: whatever further lines are ingested — including lines whose token
shape would classify as a different kind — the entity keeps its
`probeType`. -/
theorem C6_probeType_never_changes (c : Streaming.collector)
    (lines : List String) (idq : String) (pq : Streaming.probe)
    (h : alLookup c.probes idq = some pq) :
    ∃ p', alLookup (Streaming.runLines c lines).probes idq = some p' ∧
      p'.probeType = pq.probeType := by
  induction lines generalizing c pq with
  | nil => exact ⟨pq, h, rfl⟩
  | cons l ls ih =>
      obtain ⟨p', h', ht⟩ := stepLine_keeps_probeType c l idq pq h
      obtain ⟨p'', h'', ht'⟩ := ih (Streaming.stepLine c l) p' h'
      exact ⟨p'', by simpa [Streaming.runLines] using h'', ht'.trans ht⟩

/-- Witness for C6: a collector holding a pit probe with id `2A00` is fed a
food-shaped 11-token line for the same id; the probe keeps kind `"pit"`. -/
theorem C6_probeType_never_changes_witness :
    ∃ p', alLookup (Streaming.runLines
        { probes := [("2A00", Streaming.probeNew "2A00" "pit" 100)],
          collectErrors := [] }
        ["2A00: 1.0 2.0 3.0 4.0 5.0 6.0 7.0 8.0 9.0 "]).probes "2A00" =
      some p' ∧
      p'.probeType = (Streaming.probeNew "2A00" "pit" (100 : ℚ)).probeType :=
  C6_probeType_never_changes
    { probes := [("2A00", Streaming.probeNew "2A00" "pit" 100)],
      collectErrors := [] }
    ["2A00: 1.0 2.0 3.0 4.0 5.0 6.0 7.0 8.0 9.0 "] "2A00"
    (Streaming.probeNew "2A00" "pit" 100) rfl

/-! ### Claim C2 -/

/-- C2 counterexample: at the spec's two exact example lines the code does
not do what the claim says.  The first line splits into 10 tokens, so it is
ignored and no entity `2B0000110A442730` is created at all; the second line
creates entity `2A0000110A314B30` as a pit probe, but with temperature 91.7
(token index 8), not 197.0. -/
theorem C2_exact_lines_counterexample :
    (splitSpace exampleLine1).length = 10 ∧
    Streaming.setTempLine Streaming.newCollector exampleLine1 =
      some (Streaming.newCollector, none) ∧
    Streaming.setTempLine Streaming.newCollector exampleLine2 =
      some (stateAfterLine2, none) ∧
    pitProbeOf2.probeType = "pit" ∧
    pitProbeOf2.temperature ≠ (197 : ℚ) := by
  exact ⟨by decide, by decide, by decide, by decide, by decide⟩

/-- C2 amended: feeding the parser the exact line
`2B0000110A442730: 1.0 4.0 39.2 -7.5 -0.2 0.2 -0.0 0.3 32.4` creates no
entity (10 tokens, treated as a non-data line, no error); feeding it the
exact line `2A0000110A314B30: … PID: … blwr:on` creates entity
`2A0000110A314B30` with kind pit and temperature 91.7, the value of token
index 8. -/
theorem C2_exact_lines_amended :
    Streaming.setTempLine Streaming.newCollector exampleLine1 =
      some (Streaming.newCollector, none) ∧
    Streaming.setTempLine Streaming.newCollector exampleLine2 =
      some (stateAfterLine2, none) ∧
    pitProbeOf2.temperature = mkRat 917 10 := by
  exact ⟨by decide, by decide, by decide⟩

/-! ### Claim C1 -/

/-- C1: evaluation of the polling cycle at a non-200 HTTP response.  Contrary
to the claim, `getStokerStatus` returns a nil error together with a nil
payload — `errors.Wrapf` is called on the nil error of the successful
`client.Do` — and `recordMetrics` then dereferences the nil
`*stokerResponse`, so the cycle panics (`none`): the failure counter is not
incremented and the process dies instead of carrying on. -/
theorem C1_non200_nil_error_and_panic :
    Polling.getStokerStatus (.response 500 (.payload paySample)) =
      (none, none) ∧
    Polling.doMetrics pollSample (.response 500 (.payload paySample)) =
      none := by
  exact ⟨rfl, rfl⟩

/-! ### Claim C8 -/

/-- C8 counterexample: a collection cycle whose fetch outcome is an HTTP 404
response does not increment the attempt counter by 1 and does not leave the
maps unchanged while incrementing the failure counter — it panics (`none`),
because `getStokerStatus` returns a nil error with a nil payload and
`recordMetrics` dereferences the nil pointer before any counter update. -/
theorem C8_non200_cycle_panics_counterexample :
    Polling.doMetrics pollSample (.response 404 (.payload paySample)) =
      none := rfl

/-- C8 amended: for every fetch outcome other than a non-200 HTTP response,
the collection cycle increments the attempt counter by exactly 1; a
successful fetch replaces the sensor and blower maps wholesale by the
payload's entries (entities absent from the payload disappear, even when the
new sensor set is a strict subset of the old); a transport failure, a
body-read failure, a decode failure, and a decoded payload with an empty
sensor list (rejected as "no sensors found") all leave both maps exactly
unchanged and increment the failure counter by exactly 1.  (A non-200
response instead panics the process: see the counterexample.) -/
theorem C8_cycle_semantics :
    (∀ (c : Polling.collector) (s : Polling.stokerResponse), s.sensors ≠ [] →
      Polling.doMetrics c (.response 200 (.payload s)) =
        some { sensors := Polling.buildSensors s.sensors,
               blowers := Polling.buildBlowers s.blowers,
               collections := c.collections + 1,
               failures := c.failures }) ∧
    (∀ (c : Polling.collector) (s : Polling.stokerResponse), s.sensors = [] →
      Polling.doMetrics c (.response 200 (.payload s)) =
        some { c with collections := c.collections + 1,
                      failures := c.failures + 1 }) ∧
    (∀ (c : Polling.collector) (e : Polling.goError),
      Polling.doMetrics c (.transportError e) =
        some { c with collections := c.collections + 1,
                      failures := c.failures + 1 }) ∧
    (∀ (c : Polling.collector) (e : Polling.goError),
      Polling.doMetrics c (.response 200 (.readError e)) =
        some { c with collections := c.collections + 1,
                      failures := c.failures + 1 }) ∧
    (∀ (c : Polling.collector) (e : Polling.goError),
      Polling.doMetrics c (.response 200 (.unmarshalError e)) =
        some { c with collections := c.collections + 1,
                      failures := c.failures + 1 }) := by
  refine ⟨fun c s hs => ?_, fun c s hs => ?_, fun c e => rfl, fun c e => rfl,
    fun c e => rfl⟩
  · have hlen : ¬ s.sensors.length = 0 := by
      simpa [List.length_eq_zero] using hs
    simp [Polling.doMetrics, Polling.recordMetrics, Polling.getStokerStatus,
      Polling.wrap, hlen]
  · have hlen : s.sensors.length = 0 := by simp [hs]
    simp [Polling.doMetrics, Polling.recordMetrics, Polling.getStokerStatus,
      Polling.wrap, hlen]

/-- Witness for C8 at concrete inputs: a successful fetch whose payload is a
strict subset of the prior state replaces the maps wholesale (the old sensor
and the old blower disappear), and the empty payload is rejected with the
maps kept and the failure counter bumped. -/
theorem C8_cycle_semantics_witness :
    Polling.doMetrics pollSample (.response 200 (.payload paySample)) =
      some { sensors := Polling.buildSensors paySample.sensors,
             blowers := Polling.buildBlowers paySample.blowers,
             collections := pollSample.collections + 1,
             failures := pollSample.failures } ∧
    Polling.doMetrics pollSample (.response 200 (.payload payEmpty)) =
      some { pollSample with collections := pollSample.collections + 1,
                             failures := pollSample.failures + 1 } :=
  ⟨C8_cycle_semantics.1 pollSample paySample (by decide),
   C8_cycle_semantics.2.1 pollSample payEmpty rfl⟩

/-! ### Claim C9 -/

/-- C9 counterexample: the sanitizer does not replace each whitespace
character with an underscore — only the space character.  On `"a\tb"` (a tab
between two letters) the code deletes the tab, yielding `"ab"`, while the
claim's rule would yield `"a_b"`. -/
theorem C9_tab_not_underscored_counterexample :
    Polling.cleanName "a\tb" = "ab" ∧
    Polling.specCleanName "a\tb" = "a_b" ∧
    Polling.cleanName "a\tb" ≠ Polling.specCleanName "a\tb" := by
  exact ⟨by decide, by decide, by decide⟩

theorem toLower_ne_space (c : Char) (h : c ≠ ' ') : c.toLower ≠ ' ' := by
  unfold Char.toLower
  show (if c.toNat ≥ 65 ∧ c.toNat ≤ 90 then Char.ofNat (c.toNat + 32) else c)
    ≠ ' '
  by_cases hr : c.toNat ≥ 65 ∧ c.toNat ≤ 90
  · rw [if_pos hr]
    obtain ⟨h1, h2⟩ := hr
    generalize c.toNat = n at h1 h2 ⊢
    interval_cases n <;> decide
  · rw [if_neg hr]
    exact h

theorem toLower_spaceRepl_comm (c : Char) :
    (if c = ' ' then '_' else c).toLower =
      (if c.toLower = ' ' then '_' else c.toLower) := by
  by_cases h : c = ' '
  · subst h
    decide
  · rw [if_neg h, if_neg (toLower_ne_space c h)]

/-- C9 amended: the sanitizer lowercases the string, replaces each *space*
character (not each whitespace character) with an underscore, and removes
every remaining character outside `[a-z0-9_]`; consequently every stored
name consists only of characters in `[a-z0-9_]`. -/
theorem C9_sanitizer_amended :
    (∀ s, Polling.cleanName s = Polling.specCleanNameAmended s) ∧
    (∀ s c, c ∈ (Polling.cleanName s).data → Polling.isNameChar c = true) := by
  constructor
  · intro s
    unfold Polling.cleanName Polling.specCleanNameAmended
    simp only [List.map_map]
    have hfun : (Char.toLower ∘ fun c => if c = ' ' then '_' else c) =
        ((fun c => if c = ' ' then '_' else c) ∘ Char.toLower) := by
      funext c
      exact toLower_spaceRepl_comm c
    rw [hfun]
  · intro s c hc
    simp only [Polling.cleanName] at hc
    exact (List.mem_filter.mp hc).2

/-- Witness for C9: a concrete name with an uppercase letter, a space and a
punctuation character sanitizes to `[a-z0-9_]` characters only. -/
theorem C9_sanitizer_amended_witness :
    Polling.cleanName "Big Green Egg!" = Polling.specCleanNameAmended "Big Green Egg!" ∧
    Polling.isNameChar 'b' = true :=
  ⟨C9_sanitizer_amended.1 "Big Green Egg!",
   C9_sanitizer_amended.2 "Big Green Egg!" 'b' (by decide)⟩

/-! ### Claim C10 -/

/-- C10: producing an export — the polling collector's `createMetrics` and
the streaming collector's `Collect` — leaves the entire collector state
unchanged (maps, per-entity counts, per-category failure counters and
aggregate counters), for every pattern of individual metric-construction
failures. -/
theorem C10_export_leaves_state_unchanged :
    (∀ (valid : metric → Bool) (c : Polling.collector),
      (Polling.createMetrics valid c).1 = c) ∧
    (∀ (valid : metric → Bool) (c : Streaming.collector),
      (Streaming.Collect valid c).1 = c) :=
  ⟨fun _ _ => rfl, fun _ _ => rfl⟩

end StokerMonitor
